import Mathlib

/-!
A shallow embedding of the two-motor coordination layer in
`src/CarMotorControl.cpp` (PWMMotorControl), together with theorems checking
the natural-language specification against it.

The embedding covers the vehicle-level coordination code of
`CarMotorControl.cpp`.  The per-motor driver (`PWMDcMotor` / `EncoderMotor`)
and the IMU fusion module are external collaborators whose sources are not
part of this repository; the few per-motor operations the coordination layer
invokes are modelled from the specification's description of their interface
(each such definition is marked `Modelled from the spec:`).  Machine integers
are modelled as `Nat`/`Int`; the external collaborators' fixed integer widths
are not repeated here.
-/

namespace CarMotorControl

/-- Direction / brake mode values (`DIRECTION_FORWARD`, `DIRECTION_BACKWARD`,
`MOTOR_BRAKE`, `MOTOR_RELEASE`) that `CarDirectionOrBrakeMode` and each
motor's `CurrentDirectionOrBrakeMode` range over. -/
inductive DirOrBrakeMode where
  | forward
  | backward
  | brake
  | release
deriving DecidableEq, Repr

/-- Stop-mode argument of `stop` (`STOP_MODE_KEEP`, `MOTOR_BRAKE`,
`MOTOR_RELEASE`). -/
inductive StopMode where
  | keep
  | brake
  | release
deriving DecidableEq, Repr

/-- Per-motor ramp states `MOTOR_STATE_STOPPED`, `MOTOR_STATE_START`,
`MOTOR_STATE_RAMP_UP`, `MOTOR_STATE_DRIVE_SPEED`, `MOTOR_STATE_RAMP_DOWN`. -/
inductive MotorState where
  | stopped
  | start
  | rampUp
  | driveSpeed
  | rampDown
deriving DecidableEq, Repr

/-- The fields of one motor (one Actuator Unit) that the coordination layer
reads and writes.  The unit itself is an external collaborator; this structure
mirrors the fields named by the spec's Actuator Unit contract. -/
structure Motor where
  CurrentSpeed : Nat
  StartSpeed : Nat
  DriveSpeed : Nat
  SpeedCompensation : Nat
  MotorRampState : MotorState
  CurrentDirectionOrBrakeMode : DirOrBrakeMode
  DefaultStopMode : StopMode
  EncoderCount : Nat
deriving DecidableEq, Repr

/-- Vehicle-level state of `CarMotorControl`, plus the two owned motors and
the global change flags of `PWMDcMotor`. -/
structure CarState where
  right : Motor
  left : Motor
  CarDirectionOrBrakeMode : DirOrBrakeMode
  CarRequestedRotationDegrees : Int
  CarRequestedDistanceMillimeter : Nat
  CarTurnAngleHalfDegreesFromIMU : Int
  CarSpeedCmPerSecondFromIMU : Nat
  CarDistanceMillimeterFromIMU : Nat
  SensorValuesHaveChanged : Bool
  MotorControlValuesHaveChanged : Bool
deriving DecidableEq, Repr

/-- Modelled from the spec: the external unit's `stop(mode)` resolves
`STOP_MODE_KEEP` to the unit's own default stop mode, sets the commanded
speed to 0, marks the ramp state machine stopped, and records the resolved
brake/release mode as the unit's current direction-or-brake mode. -/
def motorStop (m : Motor) (aStopMode : StopMode) : Motor :=
  let tResolved := match aStopMode with
    | StopMode.keep => m.DefaultStopMode
    | other => other
  { m with
    CurrentSpeed := 0
    MotorRampState := MotorState.stopped
    CurrentDirectionOrBrakeMode :=
      match tResolved with
      | StopMode.brake => DirOrBrakeMode.brake
      | _ => DirOrBrakeMode.release }

/-- `CarMotorControl::stop` (src lines 288-292): stop both motors, then read
the vehicle mode back from the right motor (this is where `STOP_MODE_KEEP`
gets resolved). -/
def stop (st : CarState) (aStopMode : StopMode) : CarState :=
  let tRight := motorStop st.right aStopMode
  let tLeft := motorStop st.left aStopMode
  { st with
    right := tRight
    left := tLeft
    CarDirectionOrBrakeMode := tRight.CurrentDirectionOrBrakeMode }

/-- `CarMotorControl::isStopped` (src lines 566-568). -/
def isStopped (st : CarState) : Bool :=
  st.right.CurrentSpeed == 0 && st.left.CurrentSpeed == 0

/-- `CarMotorControl::checkAndHandleDirectionChange` (src lines 174-198).
Returns the new state, the number of delay milliseconds spent waiting for the
motors to coast down (`delay(tMaxSpeed / 2)`), and the boolean return value
("direction has changed and motor has stopped"). -/
def checkAndHandleDirectionChange (st : CarState) (aRequestedDirection : DirOrBrakeMode) :
    CarState × Nat × Bool :=
  if st.CarDirectionOrBrakeMode ≠ aRequestedDirection then
    let tMaxSpeed := max st.right.CurrentSpeed st.left.CurrentSpeed
    if tMaxSpeed > 0 then
      let st1 := stop st StopMode.brake
      ({ st1 with CarDirectionOrBrakeMode := aRequestedDirection }, tMaxSpeed / 2, true)
    else
      ({ st with CarDirectionOrBrakeMode := aRequestedDirection }, 0, false)
  else
    (st, 0, false)

/-- Modelled from the spec: the external unit's `set_speed(speed, direction)`
is direct and uncompensated; it stores the requested speed and direction
without touching compensation or ramp bookkeeping. -/
def motorSetSpeed (m : Motor) (aRequestedSpeed : Nat) (aRequestedDirection : DirOrBrakeMode) :
    Motor :=
  { m with
    CurrentSpeed := aRequestedSpeed
    CurrentDirectionOrBrakeMode := aRequestedDirection }

/-- The two-argument `CarMotorControl::setSpeed` (src lines 203-207): run the
direction arbitration, then set the same uncompensated speed on both motors.
The returned `Nat` is the delay introduced by the arbitration. -/
def setSpeed (st : CarState) (aRequestedSpeed : Nat) (aRequestedDirection : DirOrBrakeMode) :
    CarState × Nat :=
  let (st1, tDelay, _) := checkAndHandleDirectionChange st aRequestedDirection
  ({ st1 with
      right := motorSetSpeed st1.right aRequestedSpeed aRequestedDirection
      left := motorSetSpeed st1.left aRequestedSpeed aRequestedDirection },
    tDelay)

/-- Modelled from the spec: the external unit's compensated speed change
"sets speed adjusted by current compensation value and keeps direction" —
the applied speed is `requested_speed + speed_compensation`. -/
def motorChangeSpeedCompensated (m : Motor) (aRequestedSpeed : Nat) : Motor :=
  { m with CurrentSpeed := aRequestedSpeed + m.SpeedCompensation }

/-- `CarMotorControl::changeSpeedCompensated` (src lines 212-215). -/
def changeSpeedCompensated (st : CarState) (aRequestedSpeed : Nat) : CarState :=
  { st with
    right := motorChangeSpeedCompensated st.right aRequestedSpeed
    left := motorChangeSpeedCompensated st.left aRequestedSpeed }

/-- Modelled from the spec: the external unit's compensated speed set
arbitrates nothing itself; it applies `requested_speed + speed_compensation`
and records the direction. -/
def motorSetSpeedCompensated (m : Motor) (aRequestedSpeed : Nat)
    (aRequestedDirection : DirOrBrakeMode) : Motor :=
  { m with
    CurrentSpeed := aRequestedSpeed + m.SpeedCompensation
    CurrentDirectionOrBrakeMode := aRequestedDirection }

/-- Modelled from the spec: the external unit's
`set_values_for_fixed_distance_driving` stores the start and drive speeds and
sets the unit's compensation to the given value. -/
def motorSetValuesForFixedDistanceDriving (m : Motor) (aStartSpeed aDriveSpeed : Nat)
    (aSpeedCompensation : Nat) : Motor :=
  { m with
    StartSpeed := aStartSpeed
    DriveSpeed := aDriveSpeed
    SpeedCompensation := aSpeedCompensation }

/-- `CarMotorControl::setValuesForFixedDistanceDriving` (src lines 129-137):
a non-negative compensation bias goes to the right motor and zeroes the
left's, a negative one goes (sign flipped) to the left motor and zeroes the
right's. -/
def setValuesForFixedDistanceDriving (st : CarState) (aStartSpeed aDriveSpeed : Nat)
    (aSpeedCompensationRight : Int) : CarState :=
  if aSpeedCompensationRight ≥ 0 then
    { st with
      right := motorSetValuesForFixedDistanceDriving st.right aStartSpeed aDriveSpeed
        aSpeedCompensationRight.toNat
      left := motorSetValuesForFixedDistanceDriving st.left aStartSpeed aDriveSpeed 0 }
  else
    { st with
      right := motorSetValuesForFixedDistanceDriving st.right aStartSpeed aDriveSpeed 0
      left := motorSetValuesForFixedDistanceDriving st.left aStartSpeed aDriveSpeed
        (-aSpeedCompensationRight).toNat }

/-- `CarMotorControl::changeSpeedCompensation` (src lines 143-159): a positive
delta is first taken out of the left motor's compensation when that is large
enough, otherwise added to the right motor's; a non-positive delta is the
mirror image.  Always raises the `MotorControlValuesHaveChanged` flag. -/
def changeSpeedCompensation (st : CarState) (aSpeedCompensationRight : Int) : CarState :=
  let st1 :=
    if aSpeedCompensationRight > 0 then
      if (st.left.SpeedCompensation : Int) ≥ aSpeedCompensationRight then
        { st with left := { st.left with
            SpeedCompensation := st.left.SpeedCompensation - aSpeedCompensationRight.toNat } }
      else
        { st with right := { st.right with
            SpeedCompensation := st.right.SpeedCompensation + aSpeedCompensationRight.toNat } }
    else
      let tPositive := -aSpeedCompensationRight
      if (st.right.SpeedCompensation : Int) ≥ tPositive then
        { st with right := { st.right with
            SpeedCompensation := st.right.SpeedCompensation - tPositive.toNat } }
      else
        { st with left := { st.left with
            SpeedCompensation := st.left.SpeedCompensation + tPositive.toNat } }
  { st1 with MotorControlValuesHaveChanged := true }

/-- One batch of data offered by the external IMU fusion module on a tick:
whether new data was consumed from the FIFO, the accelerator forward offset,
and the three cumulative readings `getTurnAngleHalfDegree`,
`getSpeedCmPerSecond`, `getDistanceMillimeter`. -/
structure IMUReading where
  dataAvailable : Bool
  AcceleratorForwardOffset : Int
  turnAngleHalfDegree : Int
  speedCmPerSecond : Int
  distanceMillimeter : Int
deriving DecidableEq, Repr

/-- `CarMotorControl::updateIMUData` (src lines 322-339): when new data was
read and the forward offset is nonzero, refresh each cached reading, raising
`SensorValuesHaveChanged` only for a reading whose value actually differs
from the cached one.  Speed and distance are cached as absolute values. -/
def updateIMUData (r : IMUReading) (st : CarState) : CarState :=
  if r.dataAvailable then
    if r.AcceleratorForwardOffset ≠ 0 then
      let st1 :=
        if st.CarTurnAngleHalfDegreesFromIMU ≠ r.turnAngleHalfDegree then
          { st with
            CarTurnAngleHalfDegreesFromIMU := r.turnAngleHalfDegree
            SensorValuesHaveChanged := true }
        else st
      let st2 :=
        if st1.CarSpeedCmPerSecondFromIMU ≠ r.speedCmPerSecond.natAbs then
          { st1 with
            CarSpeedCmPerSecondFromIMU := r.speedCmPerSecond.natAbs
            SensorValuesHaveChanged := true }
        else st1
      if st2.CarDistanceMillimeterFromIMU ≠ r.distanceMillimeter.natAbs then
        { st2 with
          CarDistanceMillimeterFromIMU := r.distanceMillimeter.natAbs
          SensorValuesHaveChanged := true }
      else st2
    else st
  else st

/-- `TURN_OVERRUN_HALF_ANGLE` (src line 346). -/
def TURN_OVERRUN_HALF_ANGLE : Nat := 2

/-- `SLOW_DOWN_ANGLE` (src line 345). -/
def SLOW_DOWN_ANGLE : Nat := 10

/-- Modelled from the spec: the value of the external deceleration constant
`RAMP_DECELERATION_TIMES_2` is defined by the external unit driver's header;
only the shape of the braking-distance formula below comes from this
repository's source. -/
def RAMP_DECELERATION_TIMES_2 : Nat := 20000

/-- The inertial-feedback variant of
`CarMotorControl::getBrakingDistanceMillimeter` (src lines 724-732):
`speed² / (RAMP_DECELERATION_TIMES_2 / 100)`. -/
def getBrakingDistanceMillimeter (st : CarState) : Nat :=
  let tCarSpeedCmPerSecond := st.CarSpeedCmPerSecondFromIMU
  (tCarSpeedCmPerSecond * tCarSpeedCmPerSecond) / (RAMP_DECELERATION_TIMES_2 / 100)

/-- Modelled from the spec: the external unit's `start_ramp_down` arranges
for the unit's ramp state machine to change into ramp-down. -/
def motorStartRampDown (m : Motor) : Motor :=
  { m with MotorRampState := MotorState.rampDown }

/-- `CarMotorControl::startRampDown` (src lines 540-550): a no-op when the
car is already stopped, otherwise puts both motors into ramp-down. -/
def startRampDown (st : CarState) : CarState :=
  if isStopped st then st
  else
    { st with
      right := motorStartRampDown st.right
      left := motorStartRampDown st.left }

/-- The rotation-pending branch of `CarMotorControl::updateMotors`
(src lines 358-376, active when inertial feedback is configured and
`CarRequestedRotationDegrees != 0`): compare the cached cumulative turn angle
(half-degrees, absolute value) against twice the requested degrees; stop with
brake and clear the pending rotation within `TURN_OVERRUN_HALF_ANGLE`,
reduce both motors to the right motor's start speed (compensated) within
`SLOW_DOWN_ANGLE * 2`, otherwise leave the speeds alone.  The returned flag
is the function's "not stopped" result for this branch. -/
def rotationBranch (st : CarState) : CarState × Bool :=
  let tRequestedRotationDegreesForCompare := (st.CarRequestedRotationDegrees * 2).natAbs
  let tCarTurnAngleHalfDegreesFromIMUForCompare := st.CarTurnAngleHalfDegreesFromIMU.natAbs
  if tCarTurnAngleHalfDegreesFromIMUForCompare + TURN_OVERRUN_HALF_ANGLE ≥
      tRequestedRotationDegreesForCompare then
    let st1 := stop st StopMode.brake
    ({ st1 with CarRequestedRotationDegrees := 0 }, false)
  else if tCarTurnAngleHalfDegreesFromIMUForCompare + SLOW_DOWN_ANGLE * 2 ≥
      tRequestedRotationDegreesForCompare then
    (changeSpeedCompensated st st.right.StartSpeed, true)
  else
    (st, true)

/-- The distance-pending part of `CarMotorControl::updateMotors`
(src lines 378-405, inertial feedback without encoder motors): when a linear
distance is pending and the right motor is ramping up, at drive speed or
ramping down, brake-stop and clear the pending distance once the cumulative
measured distance has reached the target, and trigger ramp-down once
distance-travelled plus the braking-distance estimate reaches the target and
the motor is not already ramping down. -/
def distanceBranch (st : CarState) : CarState :=
  if st.CarRequestedDistanceMillimeter ≠ 0 then
    if st.right.MotorRampState = MotorState.rampUp ∨
        st.right.MotorRampState = MotorState.driveSpeed ∨
        st.right.MotorRampState = MotorState.rampDown then
      let tBrakingDistanceMillimeter := getBrakingDistanceMillimeter st
      let st1 :=
        if st.CarDistanceMillimeterFromIMU ≥ st.CarRequestedDistanceMillimeter then
          stop { st with CarRequestedDistanceMillimeter := 0 } StopMode.brake
        else st
      if st1.right.MotorRampState ≠ MotorState.rampDown ∧
          st1.CarDistanceMillimeterFromIMU + tBrakingDistanceMillimeter ≥
            st1.CarRequestedDistanceMillimeter then
        startRampDown st1
      else st1
    else st
  else st

/-- `CarMotorControl::updateMotors` (src lines 354-419) in the inertial
feedback configuration.  The per-motor `updateMotor` of the external unit
driver is passed in abstractly as `u`: it advances one motor's ramp state
machine and reports whether that motor is still moving.  When a rotation is
pending the rotation branch runs instead of the per-motor updates; otherwise
the distance branch runs (when a distance is pending) and then both motors
are updated, the results combined with logical OR. -/
def updateMotors (r : IMUReading) (u : Motor → Motor × Bool) (st : CarState) :
    CarState × Bool :=
  let st0 := updateIMUData r st
  if st0.CarRequestedRotationDegrees ≠ 0 then
    rotationBranch st0
  else
    let st1 := distanceBranch st0
    let (tRight, tRightMoving) := u st1.right
    let (tLeft, tLeftMoving) := u st1.left
    ({ st1 with right := tRight, left := tLeft }, tRightMoving || tLeftMoving)

/-- Turn modes `TURN_FORWARD`, `TURN_BACKWARD`, `TURN_IN_PLACE` of
`startRotate`. -/
inductive TurnDirection where
  | forward
  | backward
  | inPlace
deriving DecidableEq, Repr

/-- The distance split of `CarMotorControl::startRotate` (src lines 639-648),
as a pair (distance of the right-if-positive-turn role, distance of the
left-if-positive-turn role): `TURN_FORWARD` gives the whole distance to the
right role, `TURN_BACKWARD` gives it to the left role, anything else
(`TURN_IN_PLACE`) halves it between both. -/
def turnDistances (aTurnDirection : TurnDirection) (tDistanceMillimeter : Nat) : Nat × Nat :=
  match aTurnDirection with
  | TurnDirection.forward => (tDistanceMillimeter, 0)
  | TurnDirection.backward => (0, tDistanceMillimeter)
  | TurnDirection.inPlace => (tDistanceMillimeter / 2, tDistanceMillimeter / 2)

/-- The per-physical-motor command a `startRotate` call issues: a target
distance and an initial direction for each motor. -/
structure RotateCommand where
  rightDistanceMillimeter : Nat
  rightDirection : DirOrBrakeMode
  leftDistanceMillimeter : Nat
  leftDirection : DirOrBrakeMode
deriving DecidableEq, Repr

/-- The role assignment and distance split of `CarMotorControl::startRotate`
(src lines 616-648 with the per-motor hand-off of lines 675-686): a
non-negative rotation keeps the right motor in the right-if-positive-turn
role, a negative one swaps the two motors and negates the magnitude; the
right role always moves forward and the left role backward.  The total
distance computed for the magnitude (a float rounding under tick feedback,
the fixed placeholder under inertial feedback) is passed in as
`tDistanceMillimeter`. -/
def startRotateCommands (aRotationDegrees : Int) (aTurnDirection : TurnDirection)
    (tDistanceMillimeter : Nat) : RotateCommand :=
  let (tDistanceRightRole, tDistanceLeftRole) := turnDistances aTurnDirection tDistanceMillimeter
  if aRotationDegrees ≥ 0 then
    { rightDistanceMillimeter := tDistanceRightRole
      rightDirection := DirOrBrakeMode.forward
      leftDistanceMillimeter := tDistanceLeftRole
      leftDirection := DirOrBrakeMode.backward }
  else
    { rightDistanceMillimeter := tDistanceLeftRole
      rightDirection := DirOrBrakeMode.backward
      leftDistanceMillimeter := tDistanceRightRole
      leftDirection := DirOrBrakeMode.forward }

/-- The turn-speed selection of `CarMotorControl::startRotate`
(src lines 653-663) for one role motor: drive speed by default, boosted
start speed (1.5×) when the slow flag is set and the start speed is below
160. -/
def rotateTurnSpeed (m : Motor) (aUseSlowSpeed : Bool) : Nat :=
  if aUseSlowSpeed ∧ m.StartSpeed < 160 then m.StartSpeed + m.StartSpeed / 2
  else m.DriveSpeed

/-- `CarMotorControl::startRotate` (src lines 584-687) in the inertial
feedback configuration: record the pending rotation, use the fixed
placeholder distance 2000, split it per turn mode, and issue a plain
compensated speed command to a role motor only when its distance is nonzero
(right role forward, left role backward).  `IMUData.resetCarData()` resets
the external sensor's cumulative state and has no counterpart among the
fields modelled here. -/
def startRotate (aRotationDegrees : Int) (aTurnDirection : TurnDirection)
    (aUseSlowSpeed : Bool) (st : CarState) : CarState :=
  let st0 := { st with CarRequestedRotationDegrees := aRotationDegrees }
  let tDistanceMillimeter : Nat := 2000
  let (tDistanceRightRole, tDistanceLeftRole) := turnDistances aTurnDirection tDistanceMillimeter
  if aRotationDegrees ≥ 0 then
    let tTurnSpeedRight := rotateTurnSpeed st0.right aUseSlowSpeed
    let tTurnSpeedLeft := rotateTurnSpeed st0.left aUseSlowSpeed
    let st1 :=
      if tDistanceRightRole > 0 then
        { st0 with right :=
            motorSetSpeedCompensated st0.right tTurnSpeedRight DirOrBrakeMode.forward }
      else st0
    if tDistanceLeftRole > 0 then
      { st1 with left :=
          motorSetSpeedCompensated st1.left tTurnSpeedLeft DirOrBrakeMode.backward }
    else st1
  else
    let tTurnSpeedRight := rotateTurnSpeed st0.left aUseSlowSpeed
    let tTurnSpeedLeft := rotateTurnSpeed st0.right aUseSlowSpeed
    let st1 :=
      if tDistanceRightRole > 0 then
        { st0 with left :=
            motorSetSpeedCompensated st0.left tTurnSpeedRight DirOrBrakeMode.forward }
      else st0
    if tDistanceLeftRole > 0 then
      { st1 with right :=
          motorSetSpeedCompensated st1.right tTurnSpeedLeft DirOrBrakeMode.backward }
    else st1

/-- `CarMotorControl::waitUntilStopped` (src lines 555-560) with the
callback-taking `updateMotors` wrapper (src lines 424-429), as a fuel-bounded
loop: each iteration runs the caller's callback and then one engine tick (the
tick's IMU reading is drawn from the `readings` stream); the loop ends when
the engine reports stopped or the fuel runs out, and then re-reads the
vehicle mode from the right motor. -/
def waitUntilStopped (readings : Nat → IMUReading) (u : Motor → Motor × Bool)
    (cb : CarState → CarState) : Nat → CarState → CarState
  | 0, st => { st with CarDirectionOrBrakeMode := st.right.CurrentDirectionOrBrakeMode }
  | fuel + 1, st =>
    let st1 := cb st
    let (st2, tStillMoving) := updateMotors (readings fuel) u st1
    if tStillMoving then waitUntilStopped readings u cb fuel st2
    else { st2 with CarDirectionOrBrakeMode := st2.right.CurrentDirectionOrBrakeMode }

/-- `CarMotorControl::rotate` (src lines 696-701): start the rotation and
block until stopped — but only when the requested rotation is nonzero;
otherwise do nothing at all. -/
def rotate (aRotationDegrees : Int) (aTurnDirection : TurnDirection) (aUseSlowSpeed : Bool)
    (readings : Nat → IMUReading) (u : Motor → Motor × Bool) (cb : CarState → CarState)
    (fuel : Nat) (st : CarState) : CarState :=
  if aRotationDegrees ≠ 0 then
    waitUntilStopped readings u cb fuel (startRotate aRotationDegrees aTurnDirection
      aUseSlowSpeed st)
  else st

/-- Modelled from the spec: `MAX_SPEED` is the top of the external driver's
8-bit speed range. -/
def MAX_SPEED : Nat := 255

/-- `CarMotorControl::resetControlValues` (src lines 305-310): reset both
encoder motors' control values; the field the calibration loop reads back is
the encoder count. -/
def resetControlValues (st : CarState) : CarState :=
  { st with
    right := { st.right with EncoderCount := 0 }
    left := { st.left with EncoderCount := 0 } }

/-- Modelled from the spec: the external unit's `setStartSpeed` stores the
unit's start (minimum moving) speed. -/
def motorSetStartSpeed (m : Motor) (aStartSpeed : Nat) : Motor :=
  { m with StartSpeed := aStartSpeed }

/-- One iteration of the calibration sweep of `CarMotorControl::calibrate`
(src lines 754-810, tick-feedback configuration) at speed step `tSpeed`:
command the step's speed forward on each motor whose start speed is still
undetermined, accumulate the encoder ticks produced during the 200 ms settle
window (`fRight`/`fLeft` give the ticks a motor produces in one window as a
function of its current speed), then latch the step's speed as the start
speed of each still-undetermined motor whose accumulated count exceeds 6,
counting how many motors have been declared moving. -/
def calibIter (fRight fLeft : Nat → Nat) (tSpeed : Nat) (st : CarState)
    (tMotorMovingCount : Nat) : CarState × Nat :=
  let stA := if st.right.StartSpeed = 0 then
      { st with right := motorSetSpeed st.right tSpeed DirOrBrakeMode.forward }
    else st
  let stB := if stA.left.StartSpeed = 0 then
      { stA with left := motorSetSpeed stA.left tSpeed DirOrBrakeMode.forward }
    else stA
  let stC := { stB with
    right := { stB.right with EncoderCount := stB.right.EncoderCount + fRight stB.right.CurrentSpeed }
    left := { stB.left with EncoderCount := stB.left.EncoderCount + fLeft stB.left.CurrentSpeed } }
  let (stD, countD) :=
    if stC.right.StartSpeed = 0 ∧ stC.right.EncoderCount > 6 then
      ({ stC with right := motorSetStartSpeed stC.right tSpeed }, tMotorMovingCount + 1)
    else (stC, tMotorMovingCount)
  if stD.left.StartSpeed = 0 ∧ stD.left.EncoderCount > 6 then
    ({ stD with left := motorSetStartSpeed stD.left tSpeed }, countD + 1)
  else (stD, countD)

/-- The calibration sweep loop (src lines 754-810): run `calibIter` at each
speed step, stopping early once both motors are declared moving.  Returns the
final state and the number of iterations executed.  The remaining fuel
matches the speed values left before `MAX_SPEED`. -/
def calibLoop (fRight fLeft : Nat → Nat) : Nat → Nat → CarState → Nat → CarState × Nat
  | 0, _, st, _ => (st, 0)
  | fuel + 1, tSpeed, st, tMotorMovingCount =>
    let (st1, count1) := calibIter fRight fLeft tSpeed st tMotorMovingCount
    if count1 ≥ 2 then (st1, 1)
    else
      let (st2, n) := calibLoop fRight fLeft fuel (tSpeed + 1) st1 count1
      (st2, n + 1)

/-- `CarMotorControl::calibrate` (src lines 738-812, tick-feedback
configuration, without external cancellation): stop, reset the control
values, clear both start speeds, sweep the speed from 20 up to (excluding)
`MAX_SPEED`, then stop again.  The defaulted stop-mode argument of `stop()`
lives in the external header; it is modelled from the spec here, whose §4.5
describes both stops as brake-stops.  Returns the final state and the number
of sweep iterations executed.  `calibrateInit` is the reset prologue (src lines
739-749). -/
def calibrateInit (st : CarState) : CarState :=
  let st0 := stop st StopMode.brake
  let st1 := resetControlValues st0
  { st1 with
    right := { st1.right with StartSpeed := 0 }
    left := { st1.left with StartSpeed := 0 } }

/-- The sweep and final stop of `CarMotorControl::calibrate`. -/
def calibrate (fRight fLeft : Nat → Nat) (st : CarState) : CarState × Nat :=
  let (st3, n) := calibLoop fRight fLeft (MAX_SPEED - 20) 20 (calibrateInit st) 0
  (stop st3 StopMode.brake, n)

/-! Concrete fixtures used by witnesses and counterexamples. -/

/-- A motor at rest with default tunables. -/
def testMotor : Motor :=
  { CurrentSpeed := 0
    StartSpeed := 20
    DriveSpeed := 100
    SpeedCompensation := 0
    MotorRampState := MotorState.stopped
    CurrentDirectionOrBrakeMode := DirOrBrakeMode.release
    DefaultStopMode := StopMode.release
    EncoderCount := 0 }

/-- A car at rest, no pending targets. -/
def testCarState : CarState :=
  { right := testMotor
    left := testMotor
    CarDirectionOrBrakeMode := DirOrBrakeMode.forward
    CarRequestedRotationDegrees := 0
    CarRequestedDistanceMillimeter := 0
    CarTurnAngleHalfDegreesFromIMU := 0
    CarSpeedCmPerSecondFromIMU := 0
    CarDistanceMillimeterFromIMU := 0
    SensorValuesHaveChanged := false
    MotorControlValuesHaveChanged := false }

/-- An IMU reading carrying no new data: `updateIMUData` leaves the cached
values alone on such a tick. -/
def noData : IMUReading :=
  { dataAvailable := false
    AcceleratorForwardOffset := 0
    turnAngleHalfDegree := 0
    speedCmPerSecond := 0
    distanceMillimeter := 0 }

/-- A per-motor update that changes nothing and reports "not moving". -/
def neverMoving : Motor → Motor × Bool := fun m => (m, false)

/-- A per-motor update that visibly marks the motor (bumps its encoder count)
and reports "moving" — used to observe whether the engine invoked it. -/
def bumpMotor : Motor → Motor × Bool :=
  fun m => ({ m with EncoderCount := m.EncoderCount + 100 }, true)

/-- A tick-production profile for the calibration model: the motor produces 7
encoder ticks per settle window once its commanded speed has reached `a`, and
none below. -/
def stepTicks (a : Nat) : Nat → Nat := fun s => if a ≤ s then 7 else 0

/-! Helper lemmas. -/

theorem updateIMUData_right (r : IMUReading) (st : CarState) :
    (updateIMUData r st).right = st.right := by
  simp only [updateIMUData]
  split_ifs <;> rfl

theorem updateIMUData_left (r : IMUReading) (st : CarState) :
    (updateIMUData r st).left = st.left := by
  simp only [updateIMUData]
  split_ifs <;> rfl

theorem updateIMUData_rotation (r : IMUReading) (st : CarState) :
    (updateIMUData r st).CarRequestedRotationDegrees = st.CarRequestedRotationDegrees := by
  simp only [updateIMUData]
  split_ifs <;> rfl

theorem updateIMUData_distance (r : IMUReading) (st : CarState) :
    (updateIMUData r st).CarRequestedDistanceMillimeter = st.CarRequestedDistanceMillimeter := by
  simp only [updateIMUData]
  split_ifs <;> rfl

/-! Claim theorems. -/

/-- C5: a direction-change request equal to the current commanded mode is a
no-op returning "no stop occurred"; a differing request with both motors at
speed zero updates the mode immediately with no brake-stop and no delay,
returning false; a differing request with a moving motor brake-stops both
motors before the mode changes, waits half the higher current speed, and
returns true, the wait being monotone in that higher speed. -/
theorem checkAndHandleDirectionChange_arbitration :
    (∀ (st : CarState) (aDir : DirOrBrakeMode), st.CarDirectionOrBrakeMode = aDir →
      checkAndHandleDirectionChange st aDir = (st, 0, false)) ∧
    (∀ (st : CarState) (aDir : DirOrBrakeMode), st.CarDirectionOrBrakeMode ≠ aDir →
      st.right.CurrentSpeed = 0 → st.left.CurrentSpeed = 0 →
      checkAndHandleDirectionChange st aDir =
        ({ st with CarDirectionOrBrakeMode := aDir }, 0, false)) ∧
    (∀ (st : CarState) (aDir : DirOrBrakeMode), st.CarDirectionOrBrakeMode ≠ aDir →
      0 < max st.right.CurrentSpeed st.left.CurrentSpeed →
      checkAndHandleDirectionChange st aDir =
        ({ stop st StopMode.brake with CarDirectionOrBrakeMode := aDir },
          max st.right.CurrentSpeed st.left.CurrentSpeed / 2, true)) ∧
    (∀ (st st' : CarState) (aDir aDir' : DirOrBrakeMode),
      st.CarDirectionOrBrakeMode ≠ aDir → st'.CarDirectionOrBrakeMode ≠ aDir' →
      max st.right.CurrentSpeed st.left.CurrentSpeed ≤
        max st'.right.CurrentSpeed st'.left.CurrentSpeed →
      (checkAndHandleDirectionChange st aDir).2.1 ≤
        (checkAndHandleDirectionChange st' aDir').2.1) := by
  refine ⟨?_, ?_, ?_, ?_⟩
  · intro st aDir h
    simp [checkAndHandleDirectionChange, h]
  · intro st aDir h hr hl
    simp [checkAndHandleDirectionChange, h, hr, hl]
  · intro st aDir h hmax
    simp only [checkAndHandleDirectionChange, ne_eq, h, not_false_iff, if_true]
    rw [if_pos hmax]
  · intro st st' aDir aDir' h h' hle
    simp only [checkAndHandleDirectionChange, ne_eq, h, h', not_false_iff, if_true]
    by_cases h0 : 0 < max st.right.CurrentSpeed st.left.CurrentSpeed
    · rw [if_pos h0, if_pos (lt_of_lt_of_le h0 hle)]
      exact Nat.div_le_div_right hle
    · rw [if_neg h0]
      split <;> simp

/-- Witness for C5: with the car commanded forward and the right motor
running at speed 100, requesting backward brake-stops both motors, waits
50 ms, and returns true. -/
theorem checkAndHandleDirectionChange_arbitration_witness :
    checkAndHandleDirectionChange
        { testCarState with right := { testMotor with CurrentSpeed := 100 } }
        DirOrBrakeMode.backward =
      ({ stop { testCarState with right := { testMotor with CurrentSpeed := 100 } }
          StopMode.brake with CarDirectionOrBrakeMode := DirOrBrakeMode.backward },
        50, true) := by
  have h := checkAndHandleDirectionChange_arbitration.2.2.1
    { testCarState with right := { testMotor with CurrentSpeed := 100 } }
    DirOrBrakeMode.backward (by decide) (by decide)
  simpa using h

/-- C10: the blocking `rotate` with rotation degrees 0 is a complete no-op:
for every turn mode, slow-speed flag, reading stream, per-motor update,
callback and fuel it returns the state unchanged, without running the update
engine or the callback. -/
theorem rotate_zero_is_noop :
    ∀ (aTurnDirection : TurnDirection) (aUseSlowSpeed : Bool)
      (readings : Nat → IMUReading) (u : Motor → Motor × Bool)
      (cb : CarState → CarState) (fuel : Nat) (st : CarState),
      rotate 0 aTurnDirection aUseSlowSpeed readings u cb fuel st = st := by
  intro aTurnDirection aUseSlowSpeed readings u cb fuel st
  simp [rotate]

/-- C7 counterexample: with the right motor running forward at speed 100,
the two-argument `setSpeed` requesting backward does go through the §4.1
arbitration — it introduces a 50 ms braking delay and the arbitration changes
the vehicle-level commanded mode — contradicting "bypasses arbitration
entirely, introduces no delay". -/
theorem setSpeed_bypass_counterexample :
    (setSpeed { testCarState with right := { testMotor with CurrentSpeed := 100 } } 60
        DirOrBrakeMode.backward).2 ≠ 0 ∧
    (setSpeed { testCarState with right := { testMotor with CurrentSpeed := 100 } } 60
        DirOrBrakeMode.backward).2 = 50 ∧
    (setSpeed { testCarState with right := { testMotor with CurrentSpeed := 100 } } 60
        DirOrBrakeMode.backward).1.CarDirectionOrBrakeMode = DirOrBrakeMode.backward ∧
    testCarState.CarDirectionOrBrakeMode = DirOrBrakeMode.forward := by
  decide

/-- C7 (amended): the two-argument `setSpeed` first runs the §4.1 direction
arbitration (with its brake-stop and delay when the direction differs and a
motor is moving) and then applies the requested speed identically and
uncompensated to both units. -/
theorem setSpeed_arbitrates_then_sets_both :
    ∀ (st : CarState) (aSpeed : Nat) (aDir : DirOrBrakeMode),
      setSpeed st aSpeed aDir =
        ({ (checkAndHandleDirectionChange st aDir).1 with
            right := motorSetSpeed (checkAndHandleDirectionChange st aDir).1.right aSpeed aDir
            left := motorSetSpeed (checkAndHandleDirectionChange st aDir).1.left aSpeed aDir },
          (checkAndHandleDirectionChange st aDir).2.1) ∧
      (setSpeed st aSpeed aDir).1.right.CurrentSpeed = aSpeed ∧
      (setSpeed st aSpeed aDir).1.left.CurrentSpeed = aSpeed ∧
      (setSpeed st aSpeed aDir).1.right.CurrentDirectionOrBrakeMode = aDir ∧
      (setSpeed st aSpeed aDir).1.left.CurrentDirectionOrBrakeMode = aDir ∧
      (setSpeed st aSpeed aDir).2 = (checkAndHandleDirectionChange st aDir).2.1 := by
  intro st aSpeed aDir
  rcases h : checkAndHandleDirectionChange st aDir with ⟨st1, tDelay, b⟩
  simp [setSpeed, h, motorSetSpeed]

/-- C4: the turn-mode distance splits of `startRotate`.  With a non-negative
rotation the right motor is the outer side: `forward` gives it the whole
distance and the inner side 0, `backward` mirrors that with the inner side
moving backward, `in-place` gives both sides half the distance, outer
forward and inner backward; a negative rotation swaps which physical motor
plays which role. -/
theorem startRotate_turn_mode_split :
    (∀ (aRotationDegrees : Int) (tDistanceMillimeter : Nat), 0 ≤ aRotationDegrees →
      startRotateCommands aRotationDegrees TurnDirection.forward tDistanceMillimeter =
        { rightDistanceMillimeter := tDistanceMillimeter
          rightDirection := DirOrBrakeMode.forward
          leftDistanceMillimeter := 0
          leftDirection := DirOrBrakeMode.backward } ∧
      startRotateCommands aRotationDegrees TurnDirection.backward tDistanceMillimeter =
        { rightDistanceMillimeter := 0
          rightDirection := DirOrBrakeMode.forward
          leftDistanceMillimeter := tDistanceMillimeter
          leftDirection := DirOrBrakeMode.backward } ∧
      startRotateCommands aRotationDegrees TurnDirection.inPlace tDistanceMillimeter =
        { rightDistanceMillimeter := tDistanceMillimeter / 2
          rightDirection := DirOrBrakeMode.forward
          leftDistanceMillimeter := tDistanceMillimeter / 2
          leftDirection := DirOrBrakeMode.backward }) ∧
    (∀ (aRotationDegrees : Int) (aTurnDirection : TurnDirection) (tDistanceMillimeter : Nat),
      0 < aRotationDegrees →
      startRotateCommands (-aRotationDegrees) aTurnDirection tDistanceMillimeter =
        { rightDistanceMillimeter :=
            (startRotateCommands aRotationDegrees aTurnDirection
              tDistanceMillimeter).leftDistanceMillimeter
          rightDirection :=
            (startRotateCommands aRotationDegrees aTurnDirection
              tDistanceMillimeter).leftDirection
          leftDistanceMillimeter :=
            (startRotateCommands aRotationDegrees aTurnDirection
              tDistanceMillimeter).rightDistanceMillimeter
          leftDirection :=
            (startRotateCommands aRotationDegrees aTurnDirection
              tDistanceMillimeter).rightDirection }) := by
  constructor
  · intro aRotationDegrees tDistanceMillimeter hpos
    refine ⟨?_, ?_, ?_⟩ <;> simp [startRotateCommands, turnDistances, hpos]
  · intro aRotationDegrees aTurnDirection tDistanceMillimeter hpos
    have hneg : ¬ (0 : Int) ≤ -aRotationDegrees := by omega
    have hge : (0 : Int) ≤ aRotationDegrees := le_of_lt hpos
    cases aTurnDirection <;>
      simp [startRotateCommands, turnDistances, hge, hneg]

/-- Witness for C4: rotating 1 degree over a total distance of 10 mm realizes
the three splits, and rotating −1 degree swaps the two motors' commands. -/
theorem startRotate_turn_mode_split_witness :
    (startRotateCommands 1 TurnDirection.forward 10 =
      { rightDistanceMillimeter := 10
        rightDirection := DirOrBrakeMode.forward
        leftDistanceMillimeter := 0
        leftDirection := DirOrBrakeMode.backward } ∧
     startRotateCommands 1 TurnDirection.backward 10 =
      { rightDistanceMillimeter := 0
        rightDirection := DirOrBrakeMode.forward
        leftDistanceMillimeter := 10
        leftDirection := DirOrBrakeMode.backward } ∧
     startRotateCommands 1 TurnDirection.inPlace 10 =
      { rightDistanceMillimeter := 5
        rightDirection := DirOrBrakeMode.forward
        leftDistanceMillimeter := 5
        leftDirection := DirOrBrakeMode.backward }) ∧
    startRotateCommands (-1) TurnDirection.inPlace 10 =
      { rightDistanceMillimeter :=
          (startRotateCommands 1 TurnDirection.inPlace 10).leftDistanceMillimeter
        rightDirection := (startRotateCommands 1 TurnDirection.inPlace 10).leftDirection
        leftDistanceMillimeter :=
          (startRotateCommands 1 TurnDirection.inPlace 10).rightDistanceMillimeter
        leftDirection := (startRotateCommands 1 TurnDirection.inPlace 10).rightDirection } :=
  ⟨startRotate_turn_mode_split.1 1 10 (by decide),
   startRotate_turn_mode_split.2 1 TurnDirection.inPlace 10 (by decide)⟩

/-- C6 counterexample: with both compensations nonzero (left 10, right 4) and
delta 3 — a delta below every reading of "the existing compensation
magnitude" — the pair `changeSpeedCompensation 3` then
`changeSpeedCompensation (-3)` does not restore the original values: it
lands on left 7, right 1. -/
theorem changeSpeedCompensation_roundtrip_counterexample :
    (changeSpeedCompensation (changeSpeedCompensation
        { testCarState with
          left := { testMotor with SpeedCompensation := 10 }
          right := { testMotor with SpeedCompensation := 4 } } 3)
        (-3)).left.SpeedCompensation = 7 ∧
    (changeSpeedCompensation (changeSpeedCompensation
        { testCarState with
          left := { testMotor with SpeedCompensation := 10 }
          right := { testMotor with SpeedCompensation := 4 } } 3)
        (-3)).right.SpeedCompensation = 1 ∧
    ¬ ((changeSpeedCompensation (changeSpeedCompensation
        { testCarState with
          left := { testMotor with SpeedCompensation := 10 }
          right := { testMotor with SpeedCompensation := 4 } } 3)
        (-3)).left.SpeedCompensation = 10 ∧
      (changeSpeedCompensation (changeSpeedCompensation
        { testCarState with
          left := { testMotor with SpeedCompensation := 10 }
          right := { testMotor with SpeedCompensation := 4 } } 3)
        (-3)).right.SpeedCompensation = 4) := by
  decide

/-- C6 (amended): when at most one unit's compensation is nonzero and the
delta's magnitude does not exceed that compensation, the round trip
`changeSpeedCompensation d` followed by `changeSpeedCompensation (-d)`
restores both units' compensation values; and the allocation mechanism is as
claimed — a positive delta first decreases the left unit's compensation when
that is at least the delta, and only otherwise increases the right unit's
(the negative case is the mirror image). -/
theorem changeSpeedCompensation_roundtrip :
    (∀ (st : CarState) (d : Int),
      (st.left.SpeedCompensation = 0 ∨ st.right.SpeedCompensation = 0) →
      d.natAbs ≤ max st.left.SpeedCompensation st.right.SpeedCompensation →
      (changeSpeedCompensation (changeSpeedCompensation st d) (-d)).left.SpeedCompensation =
        st.left.SpeedCompensation ∧
      (changeSpeedCompensation (changeSpeedCompensation st d) (-d)).right.SpeedCompensation =
        st.right.SpeedCompensation) ∧
    (∀ (st : CarState) (d : Int), 0 < d →
      ((d ≤ (st.left.SpeedCompensation : Int) →
        (changeSpeedCompensation st d).left.SpeedCompensation =
          st.left.SpeedCompensation - d.toNat ∧
        (changeSpeedCompensation st d).right.SpeedCompensation =
          st.right.SpeedCompensation) ∧
       ((st.left.SpeedCompensation : Int) < d →
        (changeSpeedCompensation st d).right.SpeedCompensation =
          st.right.SpeedCompensation + d.toNat ∧
        (changeSpeedCompensation st d).left.SpeedCompensation =
          st.left.SpeedCompensation))) ∧
    (∀ (st : CarState) (d : Int), d < 0 →
      ((-d ≤ (st.right.SpeedCompensation : Int) →
        (changeSpeedCompensation st d).right.SpeedCompensation =
          st.right.SpeedCompensation - (-d).toNat ∧
        (changeSpeedCompensation st d).left.SpeedCompensation =
          st.left.SpeedCompensation) ∧
       ((st.right.SpeedCompensation : Int) < -d →
        (changeSpeedCompensation st d).left.SpeedCompensation =
          st.left.SpeedCompensation + (-d).toNat ∧
        (changeSpeedCompensation st d).right.SpeedCompensation =
          st.right.SpeedCompensation))) := by
  refine ⟨?_, ?_, ?_⟩
  · intro st d hone hmag
    simp only [changeSpeedCompensation]
    split_ifs <;> simp_all <;> omega
  · intro st d hd
    constructor
    · intro hle
      simp only [changeSpeedCompensation]
      split_ifs <;> simp_all
    · intro hlt
      simp only [changeSpeedCompensation]
      split_ifs <;> simp_all
      omega
  · intro st d hd
    constructor
    · intro hle
      simp only [changeSpeedCompensation]
      split_ifs <;> simp_all <;> omega
    · intro hlt
      simp only [changeSpeedCompensation]
      split_ifs <;> simp_all <;> omega

/-- Witness for C6: with only the right compensation nonzero (8) and delta 5,
the round trip restores (0, 8); and from left compensation 9, a positive
delta 4 is taken out of the left side. -/
theorem changeSpeedCompensation_roundtrip_witness :
    ((changeSpeedCompensation (changeSpeedCompensation
        { testCarState with right := { testMotor with SpeedCompensation := 8 } } 5)
        (-5)).left.SpeedCompensation = 0 ∧
     (changeSpeedCompensation (changeSpeedCompensation
        { testCarState with right := { testMotor with SpeedCompensation := 8 } } 5)
        (-5)).right.SpeedCompensation = 8) ∧
    ((changeSpeedCompensation
        { testCarState with left := { testMotor with SpeedCompensation := 9 } }
        4).left.SpeedCompensation = 9 - (4 : Int).toNat ∧
     (changeSpeedCompensation
        { testCarState with left := { testMotor with SpeedCompensation := 9 } }
        4).right.SpeedCompensation = 0) := by
  constructor
  · have h := changeSpeedCompensation_roundtrip.1
      { testCarState with right := { testMotor with SpeedCompensation := 8 } } 5
      (by left; decide) (by decide)
    simpa using h
  · have h := (changeSpeedCompensation_roundtrip.2.1
      { testCarState with left := { testMotor with SpeedCompensation := 9 } } 4
      (by decide)).1 (by decide)
    simpa using h

/-- C8 counterexample: from the state with left compensation 1 and right 0 —
which satisfies "at most one side nonzero" — `changeSpeedCompensation 5`
(left side too small to absorb the delta) leaves left 1 and raises right to
5, so both sides are nonzero afterwards. -/
theorem speedCompensation_invariant_counterexample :
    ({ testCarState with left := { testMotor with SpeedCompensation := 1 }
        }.left.SpeedCompensation = 0 ∨
       { testCarState with left := { testMotor with SpeedCompensation := 1 }
        }.right.SpeedCompensation = 0) ∧
    ¬ ((changeSpeedCompensation
          { testCarState with left := { testMotor with SpeedCompensation := 1 } }
          5).left.SpeedCompensation = 0 ∨
       (changeSpeedCompensation
          { testCarState with left := { testMotor with SpeedCompensation := 1 } }
          5).right.SpeedCompensation = 0) := by
  decide

/-- C8 (amended): `setValuesForFixedDistanceDriving` always establishes the
at-most-one-nonzero-compensation invariant; `changeSpeedCompensation`
preserves it only under the additional proviso that the side it would drain
either can absorb the whole delta or is already zero (positive delta: the
left side, negative delta: the right side). -/
theorem speedCompensation_at_most_one_nonzero :
    (∀ (st : CarState) (aStartSpeed aDriveSpeed : Nat) (aSpeedCompensationRight : Int),
      (setValuesForFixedDistanceDriving st aStartSpeed aDriveSpeed
          aSpeedCompensationRight).left.SpeedCompensation = 0 ∨
      (setValuesForFixedDistanceDriving st aStartSpeed aDriveSpeed
          aSpeedCompensationRight).right.SpeedCompensation = 0) ∧
    (∀ (st : CarState) (d : Int),
      (st.left.SpeedCompensation = 0 ∨ st.right.SpeedCompensation = 0) →
      (0 < d → d ≤ (st.left.SpeedCompensation : Int) ∨ st.left.SpeedCompensation = 0) →
      (d ≤ 0 → -d ≤ (st.right.SpeedCompensation : Int) ∨ st.right.SpeedCompensation = 0) →
      ((changeSpeedCompensation st d).left.SpeedCompensation = 0 ∨
       (changeSpeedCompensation st d).right.SpeedCompensation = 0)) := by
  constructor
  · intro st aStartSpeed aDriveSpeed aSpeedCompensationRight
    by_cases h : aSpeedCompensationRight ≥ 0 <;>
      simp [setValuesForFixedDistanceDriving, motorSetValuesForFixedDistanceDriving, h]
  · intro st d hone habsorbPos habsorbNeg
    simp only [changeSpeedCompensation]
    split_ifs <;> simp_all <;> omega

/-- Witness for C8: applying `setValuesForFixedDistanceDriving` with bias 7
to a state with both compensations dirty re-establishes the invariant, and
`changeSpeedCompensation (-3)` from right compensation 8 keeps it. -/
theorem speedCompensation_at_most_one_nonzero_witness :
    ((setValuesForFixedDistanceDriving
        { testCarState with
          left := { testMotor with SpeedCompensation := 10 }
          right := { testMotor with SpeedCompensation := 4 } }
        20 100 7).left.SpeedCompensation = 0 ∨
     (setValuesForFixedDistanceDriving
        { testCarState with
          left := { testMotor with SpeedCompensation := 10 }
          right := { testMotor with SpeedCompensation := 4 } }
        20 100 7).right.SpeedCompensation = 0) ∧
    ((changeSpeedCompensation
        { testCarState with right := { testMotor with SpeedCompensation := 8 } }
        (-3)).left.SpeedCompensation = 0 ∨
     (changeSpeedCompensation
        { testCarState with right := { testMotor with SpeedCompensation := 8 } }
        (-3)).right.SpeedCompensation = 0) :=
  ⟨speedCompensation_at_most_one_nonzero.1
      { testCarState with
        left := { testMotor with SpeedCompensation := 10 }
        right := { testMotor with SpeedCompensation := 4 } } 20 100 7,
   speedCompensation_at_most_one_nonzero.2
      { testCarState with right := { testMotor with SpeedCompensation := 8 } } (-3)
      (Or.inl (by decide)) (fun h => absurd h (by decide)) (fun _ => Or.inl (by decide))⟩

/-- C1: one engine tick with a pending rotation.  With `target` the absolute
pending rotation in half-degrees (twice the requested degrees) and `measured`
the cached cumulative turn angle after the tick's sensor refresh: within the
2-half-degree overrun margin the tick brake-stops both units, clears the
pending rotation and reports not-moving; within the 20-half-degree
look-ahead margin it only reduces both commanded speeds to the right motor's
start speed (compensated per unit) and keeps moving; otherwise it leaves the
commanded speeds unchanged. -/
theorem updateMotors_rotation_thresholds :
    ∀ (r : IMUReading) (u : Motor → Motor × Bool) (st : CarState),
      st.CarRequestedRotationDegrees ≠ 0 →
      (((updateIMUData r st).CarTurnAngleHalfDegreesFromIMU.natAbs + 2 ≥
          (st.CarRequestedRotationDegrees * 2).natAbs →
        (updateMotors r u st).1.right.CurrentSpeed = 0 ∧
        (updateMotors r u st).1.left.CurrentSpeed = 0 ∧
        (updateMotors r u st).1.right.CurrentDirectionOrBrakeMode = DirOrBrakeMode.brake ∧
        (updateMotors r u st).1.left.CurrentDirectionOrBrakeMode = DirOrBrakeMode.brake ∧
        (updateMotors r u st).1.CarRequestedRotationDegrees = 0 ∧
        (updateMotors r u st).2 = false) ∧
      ((updateIMUData r st).CarTurnAngleHalfDegreesFromIMU.natAbs + 2 <
          (st.CarRequestedRotationDegrees * 2).natAbs →
        (updateIMUData r st).CarTurnAngleHalfDegreesFromIMU.natAbs + 20 ≥
          (st.CarRequestedRotationDegrees * 2).natAbs →
        (updateMotors r u st).1.right.CurrentSpeed =
          st.right.StartSpeed + st.right.SpeedCompensation ∧
        (updateMotors r u st).1.left.CurrentSpeed =
          st.right.StartSpeed + st.left.SpeedCompensation ∧
        (updateMotors r u st).1.CarRequestedRotationDegrees =
          st.CarRequestedRotationDegrees ∧
        (updateMotors r u st).2 = true) ∧
      ((updateIMUData r st).CarTurnAngleHalfDegreesFromIMU.natAbs + 20 <
          (st.CarRequestedRotationDegrees * 2).natAbs →
        (updateMotors r u st).1.right.CurrentSpeed = st.right.CurrentSpeed ∧
        (updateMotors r u st).1.left.CurrentSpeed = st.left.CurrentSpeed ∧
        (updateMotors r u st).2 = true)) := by
  intro r u st hrot
  have hrot0 : (updateIMUData r st).CarRequestedRotationDegrees ≠ 0 := by
    rw [updateIMUData_rotation]; exact hrot
  refine ⟨?_, ?_, ?_⟩
  · intro hstop
    have hstop0 : (updateIMUData r st).CarTurnAngleHalfDegreesFromIMU.natAbs +
        TURN_OVERRUN_HALF_ANGLE ≥
        ((updateIMUData r st).CarRequestedRotationDegrees * 2).natAbs := by
      rw [updateIMUData_rotation]; exact hstop
    simp only [updateMotors, rotationBranch, hrot0, if_true, ne_eq, not_false_iff]
    rw [if_pos hstop0]
    simp [stop, motorStop, updateIMUData_right, updateIMUData_left]
  · intro hnostop hslow
    have hstop0 : ¬ ((updateIMUData r st).CarTurnAngleHalfDegreesFromIMU.natAbs +
        TURN_OVERRUN_HALF_ANGLE ≥
        ((updateIMUData r st).CarRequestedRotationDegrees * 2).natAbs) := by
      rw [updateIMUData_rotation]
      simp only [TURN_OVERRUN_HALF_ANGLE]
      omega
    have hslow0 : (updateIMUData r st).CarTurnAngleHalfDegreesFromIMU.natAbs +
        SLOW_DOWN_ANGLE * 2 ≥
        ((updateIMUData r st).CarRequestedRotationDegrees * 2).natAbs := by
      rw [updateIMUData_rotation]
      simp only [SLOW_DOWN_ANGLE]
      omega
    simp only [updateMotors, rotationBranch, hrot0, if_true, ne_eq, not_false_iff]
    rw [if_neg hstop0, if_pos hslow0]
    simp [changeSpeedCompensated, motorChangeSpeedCompensated, updateIMUData_right,
      updateIMUData_left, updateIMUData_rotation]
  · intro hfar
    have hstop0 : ¬ ((updateIMUData r st).CarTurnAngleHalfDegreesFromIMU.natAbs +
        TURN_OVERRUN_HALF_ANGLE ≥
        ((updateIMUData r st).CarRequestedRotationDegrees * 2).natAbs) := by
      rw [updateIMUData_rotation]
      simp only [TURN_OVERRUN_HALF_ANGLE]
      omega
    have hslow0 : ¬ ((updateIMUData r st).CarTurnAngleHalfDegreesFromIMU.natAbs +
        SLOW_DOWN_ANGLE * 2 ≥
        ((updateIMUData r st).CarRequestedRotationDegrees * 2).natAbs) := by
      rw [updateIMUData_rotation]
      simp only [SLOW_DOWN_ANGLE]
      omega
    simp only [updateMotors, rotationBranch, hrot0, if_true, ne_eq, not_false_iff]
    rw [if_neg hstop0, if_neg hslow0]
    simp [updateIMUData_right, updateIMUData_left]

/-- Witness for C1, the spec's own example: with a pending 90-degree rotation
(target 180 half-degrees), a cached measured angle of 178 half-degrees
brake-stops on that tick and reports not-moving, while 160 only reduces the
commanded speeds to the start speed (compensated) and keeps moving. -/
theorem updateMotors_rotation_thresholds_witness :
    ((updateMotors noData neverMoving
        { testCarState with
          CarRequestedRotationDegrees := 90
          CarTurnAngleHalfDegreesFromIMU := 178
          right := { testMotor with CurrentSpeed := 150 }
          left := { testMotor with CurrentSpeed := 150 } }).1.right.CurrentSpeed = 0 ∧
     (updateMotors noData neverMoving
        { testCarState with
          CarRequestedRotationDegrees := 90
          CarTurnAngleHalfDegreesFromIMU := 178
          right := { testMotor with CurrentSpeed := 150 }
          left := { testMotor with CurrentSpeed := 150 } }).2 = false) ∧
    ((updateMotors noData neverMoving
        { testCarState with
          CarRequestedRotationDegrees := 90
          CarTurnAngleHalfDegreesFromIMU := 160
          right := { testMotor with CurrentSpeed := 150 }
          left := { testMotor with CurrentSpeed := 150 } }).1.right.CurrentSpeed = 20 ∧
     (updateMotors noData neverMoving
        { testCarState with
          CarRequestedRotationDegrees := 90
          CarTurnAngleHalfDegreesFromIMU := 160
          right := { testMotor with CurrentSpeed := 150 }
          left := { testMotor with CurrentSpeed := 150 } }).2 = true) := by
  constructor
  · have h := (updateMotors_rotation_thresholds noData neverMoving
      { testCarState with
        CarRequestedRotationDegrees := 90
        CarTurnAngleHalfDegreesFromIMU := 178
        right := { testMotor with CurrentSpeed := 150 }
        left := { testMotor with CurrentSpeed := 150 } } (by decide)).1 (by decide)
    exact ⟨h.1, h.2.2.2.2.2⟩
  · have h := ((updateMotors_rotation_thresholds noData neverMoving
      { testCarState with
        CarRequestedRotationDegrees := 90
        CarTurnAngleHalfDegreesFromIMU := 160
        right := { testMotor with CurrentSpeed := 150 }
        left := { testMotor with CurrentSpeed := 150 } } (by decide)).2.1 (by decide)
      (by decide))
    refine ⟨?_, h.2.2.2⟩
    have h1 := h.1
    simpa using h1

/-- C2: the distance-pending step of the engine (with a pending linear target
and the right motor ramping up, at drive speed or ramping down).  If the
cumulative measured distance has reached the target, the step brake-stops
both units and clears the pending distance; otherwise ramp-down on both
units is triggered exactly when measured distance plus the braking-distance
estimate reaches the target and the unit is not already ramping down, and
the step changes nothing on any earlier tick. -/
theorem distanceBranch_braking_trigger :
    ∀ st : CarState,
      st.CarRequestedDistanceMillimeter ≠ 0 →
      (st.right.MotorRampState = MotorState.rampUp ∨
       st.right.MotorRampState = MotorState.driveSpeed ∨
       st.right.MotorRampState = MotorState.rampDown) →
      ((st.CarDistanceMillimeterFromIMU ≥ st.CarRequestedDistanceMillimeter →
        (distanceBranch st).CarRequestedDistanceMillimeter = 0 ∧
        (distanceBranch st).right.CurrentSpeed = 0 ∧
        (distanceBranch st).left.CurrentSpeed = 0 ∧
        (distanceBranch st).right.CurrentDirectionOrBrakeMode = DirOrBrakeMode.brake ∧
        (distanceBranch st).left.CurrentDirectionOrBrakeMode = DirOrBrakeMode.brake) ∧
      (st.CarDistanceMillimeterFromIMU < st.CarRequestedDistanceMillimeter →
        ((st.right.MotorRampState ≠ MotorState.rampDown ∧
          st.CarDistanceMillimeterFromIMU + getBrakingDistanceMillimeter st ≥
            st.CarRequestedDistanceMillimeter) →
          distanceBranch st = startRampDown st ∧
          (isStopped st = false →
            (distanceBranch st).right.MotorRampState = MotorState.rampDown ∧
            (distanceBranch st).left.MotorRampState = MotorState.rampDown)) ∧
        (st.CarDistanceMillimeterFromIMU + getBrakingDistanceMillimeter st <
            st.CarRequestedDistanceMillimeter →
          distanceBranch st = st) ∧
        (st.right.MotorRampState = MotorState.rampDown →
          distanceBranch st = st))) := by
  intro st hdist hramp
  constructor
  · intro hreached
    simp only [distanceBranch, ne_eq, hdist, not_false_iff, if_true]
    rw [if_pos hramp, if_pos hreached]
    have hstop : (stop { st with CarRequestedDistanceMillimeter := 0 }
        StopMode.brake).right.MotorRampState ≠ MotorState.rampDown := by
      simp [stop, motorStop]
    rw [if_pos]
    · simp [startRampDown, isStopped, stop, motorStop]
    · constructor
      · exact hstop
      · simp [stop, motorStop]
  · intro hnotreached
    have hnr : ¬ st.CarDistanceMillimeterFromIMU ≥ st.CarRequestedDistanceMillimeter := by
      omega
    refine ⟨?_, ?_, ?_⟩
    · intro ⟨hnd, htrig⟩
      have heq : distanceBranch st = startRampDown st := by
        simp only [distanceBranch, ne_eq, hdist, not_false_iff, if_true]
        rw [if_pos hramp, if_neg hnr, if_pos ⟨hnd, htrig⟩]
      refine ⟨heq, ?_⟩
      intro hmoving
      rw [heq]
      simp only [startRampDown, hmoving, Bool.false_eq_true, if_false]
      simp [motorStartRampDown]
    · intro htoofar
      simp only [distanceBranch, ne_eq, hdist, not_false_iff, if_true]
      rw [if_pos hramp, if_neg hnr, if_neg]
      intro ⟨_, htrig⟩
      omega
    · intro hdown
      simp only [distanceBranch, ne_eq, hdist, not_false_iff, if_true]
      rw [if_pos hramp, if_neg hnr, if_neg]
      intro ⟨hnd, _⟩
      exact hnd hdown

/-- Witness for C2: target 500 mm at drive speed — measured 500 brake-stops
and clears the pending distance; measured 460 at 100 cm/s (braking estimate
50 mm, 460 + 50 ≥ 500) triggers ramp-down on both units on that tick, while
measured 400 (400 + 50 < 500) changes nothing. -/
theorem distanceBranch_braking_trigger_witness :
    ((distanceBranch
        { testCarState with
          CarRequestedDistanceMillimeter := 500
          CarDistanceMillimeterFromIMU := 500
          CarSpeedCmPerSecondFromIMU := 100
          right := { testMotor with CurrentSpeed := 100, MotorRampState := MotorState.driveSpeed }
          left := { testMotor with CurrentSpeed := 100, MotorRampState := MotorState.driveSpeed } }).CarRequestedDistanceMillimeter = 0 ∧
     (distanceBranch
        { testCarState with
          CarRequestedDistanceMillimeter := 500
          CarDistanceMillimeterFromIMU := 500
          CarSpeedCmPerSecondFromIMU := 100
          right := { testMotor with CurrentSpeed := 100, MotorRampState := MotorState.driveSpeed }
          left := { testMotor with CurrentSpeed := 100, MotorRampState := MotorState.driveSpeed } }).right.CurrentSpeed = 0) ∧
    ((distanceBranch
        { testCarState with
          CarRequestedDistanceMillimeter := 500
          CarDistanceMillimeterFromIMU := 460
          CarSpeedCmPerSecondFromIMU := 100
          right := { testMotor with CurrentSpeed := 100, MotorRampState := MotorState.driveSpeed }
          left := { testMotor with CurrentSpeed := 100, MotorRampState := MotorState.driveSpeed } }).right.MotorRampState =
        MotorState.rampDown ∧
     (distanceBranch
        { testCarState with
          CarRequestedDistanceMillimeter := 500
          CarDistanceMillimeterFromIMU := 460
          CarSpeedCmPerSecondFromIMU := 100
          right := { testMotor with CurrentSpeed := 100, MotorRampState := MotorState.driveSpeed }
          left := { testMotor with CurrentSpeed := 100, MotorRampState := MotorState.driveSpeed } }).left.MotorRampState =
        MotorState.rampDown) ∧
    distanceBranch
        { testCarState with
          CarRequestedDistanceMillimeter := 500
          CarDistanceMillimeterFromIMU := 400
          CarSpeedCmPerSecondFromIMU := 100
          right := { testMotor with CurrentSpeed := 100, MotorRampState := MotorState.driveSpeed }
          left := { testMotor with CurrentSpeed := 100, MotorRampState := MotorState.driveSpeed } } =
      { testCarState with
        CarRequestedDistanceMillimeter := 500
        CarDistanceMillimeterFromIMU := 400
        CarSpeedCmPerSecondFromIMU := 100
        right := { testMotor with CurrentSpeed := 100, MotorRampState := MotorState.driveSpeed }
        left := { testMotor with CurrentSpeed := 100, MotorRampState := MotorState.driveSpeed } } := by
  refine ⟨?_, ?_, ?_⟩
  · have h := (distanceBranch_braking_trigger
      { testCarState with
        CarRequestedDistanceMillimeter := 500
        CarDistanceMillimeterFromIMU := 500
        CarSpeedCmPerSecondFromIMU := 100
        right := { testMotor with CurrentSpeed := 100, MotorRampState := MotorState.driveSpeed }
        left := { testMotor with CurrentSpeed := 100, MotorRampState := MotorState.driveSpeed } } (by decide)
      (Or.inr (Or.inl rfl))).1 (by decide)
    exact ⟨h.1, h.2.1⟩
  · have h := (((distanceBranch_braking_trigger
      { testCarState with
        CarRequestedDistanceMillimeter := 500
        CarDistanceMillimeterFromIMU := 460
        CarSpeedCmPerSecondFromIMU := 100
        right := { testMotor with CurrentSpeed := 100, MotorRampState := MotorState.driveSpeed }
        left := { testMotor with CurrentSpeed := 100, MotorRampState := MotorState.driveSpeed } } (by decide)
      (Or.inr (Or.inl rfl))).2 (by decide)).1 ⟨by decide, by decide⟩).2 (by decide)
    exact h
  · exact (((distanceBranch_braking_trigger
      { testCarState with
        CarRequestedDistanceMillimeter := 500
        CarDistanceMillimeterFromIMU := 400
        CarSpeedCmPerSecondFromIMU := 100
        right := { testMotor with CurrentSpeed := 100, MotorRampState := MotorState.driveSpeed }
        left := { testMotor with CurrentSpeed := 100, MotorRampState := MotorState.driveSpeed } } (by decide)
      (Or.inr (Or.inl rfl))).2 (by decide)).2.1 (by decide))

/-- C3 counterexample: on a tick with a pending rotation far from its target,
the engine does not invoke the per-unit updates at all and returns true
regardless of what the units would report: with a per-unit update that always
reports "not moving" the OR of the units' results is false yet the engine
returns true, and a per-unit update that marks the motor leaves no mark. -/
theorem updateMotors_or_counterexample :
    (updateMotors noData neverMoving
        { testCarState with
          CarRequestedRotationDegrees := 100
          right := { testMotor with CurrentSpeed := 150 }
          left := { testMotor with CurrentSpeed := 150 } }).2 = true ∧
    ((neverMoving { testMotor with CurrentSpeed := 150 }).2 ||
     (neverMoving { testMotor with CurrentSpeed := 150 }).2) = false ∧
    (updateMotors noData bumpMotor
        { testCarState with
          CarRequestedRotationDegrees := 100
          right := { testMotor with CurrentSpeed := 150 }
          left := { testMotor with CurrentSpeed := 150 } }).1.right.EncoderCount = 0 ∧
    (bumpMotor { testMotor with CurrentSpeed := 150 }).1.EncoderCount = 100 := by
  decide

/-- C3 (amended): when no rotation is pending, one engine tick runs the
distance logic and then invokes both units' own updates, its motors becoming
exactly the motors those updates return and its still-moving result the
logical OR of the units' results; when a rotation is pending the per-unit
updates are skipped and the tick's result is the rotation branch's own flag. -/
theorem updateMotors_or_of_unit_updates :
    ∀ (r : IMUReading) (u : Motor → Motor × Bool) (st : CarState),
      st.CarRequestedRotationDegrees = 0 →
      (updateMotors r u st).1.right = (u (distanceBranch (updateIMUData r st)).right).1 ∧
      (updateMotors r u st).1.left = (u (distanceBranch (updateIMUData r st)).left).1 ∧
      (updateMotors r u st).2 =
        ((u (distanceBranch (updateIMUData r st)).right).2 ||
         (u (distanceBranch (updateIMUData r st)).left).2) := by
  intro r u st h
  have h0 : ¬ ((updateIMUData r st).CarRequestedRotationDegrees ≠ 0) := by
    rw [updateIMUData_rotation, h]
    simp
  simp only [updateMotors]
  rw [if_neg h0]
  rcases hR : u (distanceBranch (updateIMUData r st)).right with ⟨mR, bR⟩
  rcases hL : u (distanceBranch (updateIMUData r st)).left with ⟨mL, bL⟩
  simp [hR, hL]

/-- Witness for C3 (amended): on a quiescent car with no pending rotation,
the tick's motors are the per-unit update's outputs and its result is the OR
of the units' results. -/
theorem updateMotors_or_of_unit_updates_witness :
    (updateMotors noData bumpMotor testCarState).1.right =
      (bumpMotor (distanceBranch (updateIMUData noData testCarState)).right).1 ∧
    (updateMotors noData bumpMotor testCarState).1.left =
      (bumpMotor (distanceBranch (updateIMUData noData testCarState)).left).1 ∧
    (updateMotors noData bumpMotor testCarState).2 =
      ((bumpMotor (distanceBranch (updateIMUData noData testCarState)).right).2 ||
       (bumpMotor (distanceBranch (updateIMUData noData testCarState)).left).2) :=
  updateMotors_or_of_unit_updates noData bumpMotor testCarState (by decide)

/-- Calibration sweep, phase lemma: with the right motor's start speed
already latched and the left motor still pending with a clean count, the
sweep latches the left start speed at exactly the step where its tick
profile starts producing (threshold `aL`), leaves the right latch alone, and
exits right there. -/
theorem calibLoop_left_pending (fR : Nat → Nat) (aL : Nat) :
    ∀ (n s : Nat) (st : CarState),
      st.right.StartSpeed ≠ 0 →
      st.left.StartSpeed = 0 → st.left.EncoderCount = 0 →
      s ≤ aL → aL < s + n →
      (calibLoop fR (stepTicks aL) n s st 1).1.right.StartSpeed = st.right.StartSpeed ∧
      (calibLoop fR (stepTicks aL) n s st 1).1.left.StartSpeed = aL ∧
      (calibLoop fR (stepTicks aL) n s st 1).2 = aL + 1 - s := by
  intro n
  induction n with
  | zero =>
    intro s st _ _ _ hs hn
    omega
  | succ n ih =>
    intro s st hR hL0 hLc hs hn
    rcases Nat.eq_or_lt_of_le hs with heq | hlt
    · subst heq
      have hiter : calibIter fR (stepTicks s) s st 1 =
          ({ st with
              right := { st.right with
                EncoderCount := st.right.EncoderCount + fR st.right.CurrentSpeed }
              left := { st.left with
                CurrentSpeed := s
                CurrentDirectionOrBrakeMode := DirOrBrakeMode.forward
                EncoderCount := 7
                StartSpeed := s } }, 2) := by
        simp [calibIter, motorSetSpeed, motorSetStartSpeed, stepTicks, hR, hL0, hLc]
      simp only [calibLoop, hiter]
      simp [hR]
    · have hnle : ¬ aL ≤ s := by omega
      have hiter : calibIter fR (stepTicks aL) s st 1 =
          ({ st with
              right := { st.right with
                EncoderCount := st.right.EncoderCount + fR st.right.CurrentSpeed }
              left := { st.left with
                CurrentSpeed := s
                CurrentDirectionOrBrakeMode := DirOrBrakeMode.forward
                EncoderCount := 0 } }, 1) := by
        simp [calibIter, motorSetSpeed, motorSetStartSpeed, stepTicks, hR, hL0, hLc, hnle]
      simp only [calibLoop, hiter]
      have hrec := ih (s + 1)
        { st with
          right := { st.right with
            EncoderCount := st.right.EncoderCount + fR st.right.CurrentSpeed }
          left := { st.left with
            CurrentSpeed := s
            CurrentDirectionOrBrakeMode := DirOrBrakeMode.forward
            EncoderCount := 0 } }
        (by simpa using hR) (by simpa using hL0) (by simp) (by omega) (by omega)
      rcases hloop : calibLoop fR (stepTicks aL) n (s + 1)
        { st with
          right := { st.right with
            EncoderCount := st.right.EncoderCount + fR st.right.CurrentSpeed }
          left := { st.left with
            CurrentSpeed := s
            CurrentDirectionOrBrakeMode := DirOrBrakeMode.forward
            EncoderCount := 0 } } 1 with ⟨stF, nF⟩
      rw [hloop] at hrec
      simp only [hloop]
      simp at hrec ⊢
      refine ⟨hrec.1, hrec.2.1, ?_⟩
      omega

/-- Calibration sweep, phase lemma: with the left motor's start speed
already latched and the right motor still pending with a clean count, the
sweep latches the right start speed at its tick profile's threshold `aR`,
leaves the left latch alone, and exits right there. -/
theorem calibLoop_right_pending (fL : Nat → Nat) (aR : Nat) :
    ∀ (n s : Nat) (st : CarState),
      st.left.StartSpeed ≠ 0 →
      st.right.StartSpeed = 0 → st.right.EncoderCount = 0 →
      s ≤ aR → aR < s + n →
      (calibLoop (stepTicks aR) fL n s st 1).1.left.StartSpeed = st.left.StartSpeed ∧
      (calibLoop (stepTicks aR) fL n s st 1).1.right.StartSpeed = aR ∧
      (calibLoop (stepTicks aR) fL n s st 1).2 = aR + 1 - s := by
  intro n
  induction n with
  | zero =>
    intro s st _ _ _ hs hn
    omega
  | succ n ih =>
    intro s st hL hR0 hRc hs hn
    rcases Nat.eq_or_lt_of_le hs with heq | hlt
    · subst heq
      have hiter : calibIter (stepTicks s) fL s st 1 =
          ({ st with
              right := { st.right with
                CurrentSpeed := s
                CurrentDirectionOrBrakeMode := DirOrBrakeMode.forward
                EncoderCount := 7
                StartSpeed := s }
              left := { st.left with
                EncoderCount := st.left.EncoderCount + fL st.left.CurrentSpeed } }, 2) := by
        simp [calibIter, motorSetSpeed, motorSetStartSpeed, stepTicks, hL, hR0, hRc]
      simp only [calibLoop, hiter]
      simp [hL]
    · have hnle : ¬ aR ≤ s := by omega
      have hiter : calibIter (stepTicks aR) fL s st 1 =
          ({ st with
              right := { st.right with
                CurrentSpeed := s
                CurrentDirectionOrBrakeMode := DirOrBrakeMode.forward
                EncoderCount := 0 }
              left := { st.left with
                EncoderCount := st.left.EncoderCount + fL st.left.CurrentSpeed } }, 1) := by
        simp [calibIter, motorSetSpeed, motorSetStartSpeed, stepTicks, hL, hR0, hRc, hnle]
      simp only [calibLoop, hiter]
      have hrec := ih (s + 1)
        { st with
          right := { st.right with
            CurrentSpeed := s
            CurrentDirectionOrBrakeMode := DirOrBrakeMode.forward
            EncoderCount := 0 }
          left := { st.left with
            EncoderCount := st.left.EncoderCount + fL st.left.CurrentSpeed } }
        (by simpa using hL) (by simpa using hR0) (by simp) (by omega) (by omega)
      rcases hloop : calibLoop (stepTicks aR) fL n (s + 1)
        { st with
          right := { st.right with
            CurrentSpeed := s
            CurrentDirectionOrBrakeMode := DirOrBrakeMode.forward
            EncoderCount := 0 }
          left := { st.left with
            EncoderCount := st.left.EncoderCount + fL st.left.CurrentSpeed } } 1 with ⟨stF, nF⟩
      rw [hloop] at hrec
      simp only [hloop]
      simp at hrec ⊢
      refine ⟨hrec.1, hrec.2.1, ?_⟩
      omega

/-- Calibration sweep, main lemma: with both motors pending and clean counts,
the sweep latches each motor's start speed at exactly its tick profile's
threshold and exits after the later of the two thresholds. -/
theorem calibLoop_both_pending (aR aL : Nat) (haR : 0 < aR) (haL : 0 < aL) :
    ∀ (n s : Nat) (st : CarState),
      st.right.StartSpeed = 0 → st.right.EncoderCount = 0 →
      st.left.StartSpeed = 0 → st.left.EncoderCount = 0 →
      s ≤ aR → s ≤ aL → aR < s + n → aL < s + n →
      (calibLoop (stepTicks aR) (stepTicks aL) n s st 0).1.right.StartSpeed = aR ∧
      (calibLoop (stepTicks aR) (stepTicks aL) n s st 0).1.left.StartSpeed = aL ∧
      (calibLoop (stepTicks aR) (stepTicks aL) n s st 0).2 = max aR aL + 1 - s := by
  intro n
  induction n with
  | zero =>
    intro s st _ _ _ _ hsr hsl hrn hln
    omega
  | succ n ih =>
    intro s st hR0 hRc hL0 hLc hsr hsl hrn hln
    by_cases heqR : s = aR
    · by_cases heqL : s = aL
      · -- both latch on this step and the loop exits
        subst heqR
        have hiter : calibIter (stepTicks s) (stepTicks s) s st 0 =
            ({ st with
                right := { st.right with
                  CurrentSpeed := s
                  CurrentDirectionOrBrakeMode := DirOrBrakeMode.forward
                  EncoderCount := 7
                  StartSpeed := s }
                left := { st.left with
                  CurrentSpeed := s
                  CurrentDirectionOrBrakeMode := DirOrBrakeMode.forward
                  EncoderCount := 7
                  StartSpeed := s } }, 2) := by
          simp [calibIter, motorSetSpeed, motorSetStartSpeed, stepTicks, hR0, hRc, hL0, hLc]
        subst heqL
        simp only [calibLoop, hiter]
        simp
      · -- only the right motor latches here; continue with the left pending
        subst heqR
        have hltL : s < aL := by omega
        have hnleL : ¬ aL ≤ s := by omega
        have hiter : calibIter (stepTicks s) (stepTicks aL) s st 0 =
            ({ st with
                right := { st.right with
                  CurrentSpeed := s
                  CurrentDirectionOrBrakeMode := DirOrBrakeMode.forward
                  EncoderCount := 7
                  StartSpeed := s }
                left := { st.left with
                  CurrentSpeed := s
                  CurrentDirectionOrBrakeMode := DirOrBrakeMode.forward
                  EncoderCount := 0 } }, 1) := by
          simp [calibIter, motorSetSpeed, motorSetStartSpeed, stepTicks, hR0, hRc, hL0,
            hLc, hnleL]
        simp only [calibLoop, hiter]
        have hrec := calibLoop_left_pending (stepTicks s) aL n (s + 1)
          { st with
            right := { st.right with
              CurrentSpeed := s
              CurrentDirectionOrBrakeMode := DirOrBrakeMode.forward
              EncoderCount := 7
              StartSpeed := s }
            left := { st.left with
              CurrentSpeed := s
              CurrentDirectionOrBrakeMode := DirOrBrakeMode.forward
              EncoderCount := 0 } }
          (by simp; omega) (by simpa using hL0) (by simp) (by omega) (by omega)
        rcases hloop : calibLoop (stepTicks s) (stepTicks aL) n (s + 1)
          { st with
            right := { st.right with
              CurrentSpeed := s
              CurrentDirectionOrBrakeMode := DirOrBrakeMode.forward
              EncoderCount := 7
              StartSpeed := s }
            left := { st.left with
              CurrentSpeed := s
              CurrentDirectionOrBrakeMode := DirOrBrakeMode.forward
              EncoderCount := 0 } } 1 with ⟨stF, nF⟩
        rw [hloop] at hrec
        simp only [hloop]
        simp at hrec ⊢
        refine ⟨hrec.1, hrec.2.1, ?_⟩
        omega
    · by_cases heqL : s = aL
      · -- only the left motor latches here; continue with the right pending
        subst heqL
        have hltR : s < aR := by omega
        have hnleR : ¬ aR ≤ s := by omega
        have hiter : calibIter (stepTicks aR) (stepTicks s) s st 0 =
            ({ st with
                right := { st.right with
                  CurrentSpeed := s
                  CurrentDirectionOrBrakeMode := DirOrBrakeMode.forward
                  EncoderCount := 0 }
                left := { st.left with
                  CurrentSpeed := s
                  CurrentDirectionOrBrakeMode := DirOrBrakeMode.forward
                  EncoderCount := 7
                  StartSpeed := s } }, 1) := by
          simp [calibIter, motorSetSpeed, motorSetStartSpeed, stepTicks, hR0, hRc, hL0,
            hLc, hnleR]
        simp only [calibLoop, hiter]
        have hrec := calibLoop_right_pending (stepTicks s) aR n (s + 1)
          { st with
            right := { st.right with
              CurrentSpeed := s
              CurrentDirectionOrBrakeMode := DirOrBrakeMode.forward
              EncoderCount := 0 }
            left := { st.left with
              CurrentSpeed := s
              CurrentDirectionOrBrakeMode := DirOrBrakeMode.forward
              EncoderCount := 7
              StartSpeed := s } }
          (by simp; omega) (by simpa using hR0) (by simp) (by omega) (by omega)
        rcases hloop : calibLoop (stepTicks aR) (stepTicks s) n (s + 1)
          { st with
            right := { st.right with
              CurrentSpeed := s
              CurrentDirectionOrBrakeMode := DirOrBrakeMode.forward
              EncoderCount := 0 }
            left := { st.left with
              CurrentSpeed := s
              CurrentDirectionOrBrakeMode := DirOrBrakeMode.forward
              EncoderCount := 7
              StartSpeed := s } } 1 with ⟨stF, nF⟩
        rw [hloop] at hrec
        simp only [hloop]
        simp at hrec ⊢
        refine ⟨hrec.2.1, hrec.1, ?_⟩
        omega
      · -- neither threshold reached yet: a silent step
        have hltR : s < aR := by omega
        have hltL : s < aL := by omega
        have hnleR : ¬ aR ≤ s := by omega
        have hnleL : ¬ aL ≤ s := by omega
        have hiter : calibIter (stepTicks aR) (stepTicks aL) s st 0 =
            ({ st with
                right := { st.right with
                  CurrentSpeed := s
                  CurrentDirectionOrBrakeMode := DirOrBrakeMode.forward
                  EncoderCount := 0 }
                left := { st.left with
                  CurrentSpeed := s
                  CurrentDirectionOrBrakeMode := DirOrBrakeMode.forward
                  EncoderCount := 0 } }, 0) := by
          simp [calibIter, motorSetSpeed, motorSetStartSpeed, stepTicks, hR0, hRc, hL0,
            hLc, hnleR, hnleL]
        simp only [calibLoop, hiter]
        have hrec := ih (s + 1)
          { st with
            right := { st.right with
              CurrentSpeed := s
              CurrentDirectionOrBrakeMode := DirOrBrakeMode.forward
              EncoderCount := 0 }
            left := { st.left with
              CurrentSpeed := s
              CurrentDirectionOrBrakeMode := DirOrBrakeMode.forward
              EncoderCount := 0 } }
          (by simpa using hR0) (by simp) (by simpa using hL0) (by simp) (by omega) (by omega)
          (by omega) (by omega)
        rcases hloop : calibLoop (stepTicks aR) (stepTicks aL) n (s + 1)
          { st with
            right := { st.right with
              CurrentSpeed := s
              CurrentDirectionOrBrakeMode := DirOrBrakeMode.forward
              EncoderCount := 0 }
            left := { st.left with
              CurrentSpeed := s
              CurrentDirectionOrBrakeMode := DirOrBrakeMode.forward
              EncoderCount := 0 } } 0 with ⟨stF, nF⟩
        rw [hloop] at hrec
        simp only [hloop]
        simp at hrec ⊢
        refine ⟨hrec.1, hrec.2.1, ?_⟩
        omega

/-- Calibration sweep, degenerate lemma: when neither motor ever produces
ticks, nothing latches and the sweep runs its full length. -/
theorem calibLoop_never_moves :
    ∀ (n s : Nat) (st : CarState),
      st.right.StartSpeed = 0 → st.right.EncoderCount = 0 →
      st.left.StartSpeed = 0 → st.left.EncoderCount = 0 →
      (calibLoop (fun _ => 0) (fun _ => 0) n s st 0).1.right.StartSpeed = 0 ∧
      (calibLoop (fun _ => 0) (fun _ => 0) n s st 0).1.left.StartSpeed = 0 ∧
      (calibLoop (fun _ => 0) (fun _ => 0) n s st 0).2 = n := by
  intro n
  induction n with
  | zero =>
    intro s st hR0 _ hL0 _
    simp [calibLoop, hR0, hL0]
  | succ n ih =>
    intro s st hR0 hRc hL0 hLc
    have hiter : calibIter (fun _ => 0) (fun _ => 0) s st 0 =
        ({ st with
            right := { st.right with
              CurrentSpeed := s
              CurrentDirectionOrBrakeMode := DirOrBrakeMode.forward
              EncoderCount := 0 }
            left := { st.left with
              CurrentSpeed := s
              CurrentDirectionOrBrakeMode := DirOrBrakeMode.forward
              EncoderCount := 0 } }, 0) := by
      simp [calibIter, motorSetSpeed, motorSetStartSpeed, hR0, hRc, hL0, hLc]
    simp only [calibLoop, hiter]
    have hrec := ih (s + 1)
      { st with
        right := { st.right with
          CurrentSpeed := s
          CurrentDirectionOrBrakeMode := DirOrBrakeMode.forward
          EncoderCount := 0 }
        left := { st.left with
          CurrentSpeed := s
          CurrentDirectionOrBrakeMode := DirOrBrakeMode.forward
          EncoderCount := 0 } }
      (by simpa using hR0) (by simp) (by simpa using hL0) (by simp)
    rcases hloop : calibLoop (fun _ => 0) (fun _ => 0) n (s + 1)
      { st with
        right := { st.right with
          CurrentSpeed := s
          CurrentDirectionOrBrakeMode := DirOrBrakeMode.forward
          EncoderCount := 0 }
        left := { st.left with
          CurrentSpeed := s
          CurrentDirectionOrBrakeMode := DirOrBrakeMode.forward
          EncoderCount := 0 } } 0 with ⟨stF, nF⟩
    rw [hloop] at hrec
    simp only [hloop]
    simp at hrec ⊢
    exact ⟨hrec.1, hrec.2.1, by omega⟩

theorem calibrateInit_fields (st : CarState) :
    (calibrateInit st).right.StartSpeed = 0 ∧ (calibrateInit st).right.EncoderCount = 0 ∧
    (calibrateInit st).left.StartSpeed = 0 ∧ (calibrateInit st).left.EncoderCount = 0 := by
  simp [calibrateInit, resetControlValues, stop, motorStop]

/-- C9: calibration under tick feedback.  For any pair of per-motor tick
profiles that start producing more than the 6-tick threshold at commanded
speeds `aR` and `aL` inside the sweep range, the sweep latches exactly those
speeds as the two start speeds and terminates right at the later of the two
steps (`max aR aL - 19` iterations instead of the full `MAX_SPEED - 20`),
and the procedure finishes with both units stopped; if neither motor ever
produces ticks, the sweep runs to the speed ceiling and latches nothing. -/
theorem calibrate_latches_start_speeds :
    ∀ (aR aL : Nat) (st : CarState),
      20 ≤ aR → aR < MAX_SPEED → 20 ≤ aL → aL < MAX_SPEED →
      ((calibrate (stepTicks aR) (stepTicks aL) st).1.right.StartSpeed = aR ∧
       (calibrate (stepTicks aR) (stepTicks aL) st).1.left.StartSpeed = aL ∧
       (calibrate (stepTicks aR) (stepTicks aL) st).2 = max aR aL - 19 ∧
       (calibrate (stepTicks aR) (stepTicks aL) st).1.right.CurrentSpeed = 0 ∧
       (calibrate (stepTicks aR) (stepTicks aL) st).1.left.CurrentSpeed = 0) ∧
      ((calibrate (fun _ => 0) (fun _ => 0) st).1.right.StartSpeed = 0 ∧
       (calibrate (fun _ => 0) (fun _ => 0) st).1.left.StartSpeed = 0 ∧
       (calibrate (fun _ => 0) (fun _ => 0) st).2 = MAX_SPEED - 20 ∧
       (calibrate (fun _ => 0) (fun _ => 0) st).1.right.CurrentSpeed = 0 ∧
       (calibrate (fun _ => 0) (fun _ => 0) st).1.left.CurrentSpeed = 0) := by
  intro aR aL st h20R hmaxR h20L hmaxL
  obtain ⟨hf1, hf2, hf3, hf4⟩ := calibrateInit_fields st
  constructor
  · have hmain := calibLoop_both_pending aR aL (by omega) (by omega) (MAX_SPEED - 20) 20
      (calibrateInit st) hf1 hf2 hf3 hf4 h20R h20L
      (by simp only [MAX_SPEED] at hmaxR ⊢; omega)
      (by simp only [MAX_SPEED] at hmaxL ⊢; omega)
    simp only [calibrate]
    rcases hloop : calibLoop (stepTicks aR) (stepTicks aL) (MAX_SPEED - 20) 20
      (calibrateInit st) 0 with ⟨stF, nF⟩
    rw [hloop] at hmain
    simp only [hloop]
    simp only at hmain
    refine ⟨?_, ?_, ?_, ?_, ?_⟩
    · simpa [stop, motorStop] using hmain.1
    · simpa [stop, motorStop] using hmain.2.1
    · have := hmain.2.2
      simp at this ⊢
      omega
    · simp [stop, motorStop]
    · simp [stop, motorStop]
  · have hmain := calibLoop_never_moves (MAX_SPEED - 20) 20 (calibrateInit st) hf1 hf2 hf3 hf4
    simp only [calibrate]
    rcases hloop : calibLoop (fun _ => 0) (fun _ => 0) (MAX_SPEED - 20) 20
      (calibrateInit st) 0 with ⟨stF, nF⟩
    rw [hloop] at hmain
    simp only [hloop]
    simp only at hmain
    refine ⟨?_, ?_, ?_, ?_, ?_⟩
    · simpa [stop, motorStop] using hmain.1
    · simpa [stop, motorStop] using hmain.2.1
    · simpa using hmain.2.2
    · simp [stop, motorStop]
    · simp [stop, motorStop]

/-- Witness for C9, the spec's own example: a right motor crossing the
6-tick threshold at commanded speed 27 (left at 25) gets start speed exactly
27 (left 25), the sweep ends after 8 steps — at speed 27, far below the
ceiling — and both units are stopped afterwards. -/
theorem calibrate_latches_start_speeds_witness :
    (calibrate (stepTicks 27) (stepTicks 25) testCarState).1.right.StartSpeed = 27 ∧
    (calibrate (stepTicks 27) (stepTicks 25) testCarState).1.left.StartSpeed = 25 ∧
    (calibrate (stepTicks 27) (stepTicks 25) testCarState).2 = 8 ∧
    (calibrate (stepTicks 27) (stepTicks 25) testCarState).1.right.CurrentSpeed = 0 ∧
    (calibrate (stepTicks 27) (stepTicks 25) testCarState).1.left.CurrentSpeed = 0 := by
  have h := (calibrate_latches_start_speeds 27 25 testCarState (by decide)
    (by decide) (by decide) (by decide)).1
  simpa using h

end CarMotorControl
